import Mathlib

/-!
Verification of the wylbe flyer-zone editor core.

The development shallowly embeds the TypeScript sources in Lean 4:

* JavaScript numbers are modelled by `ℚ`.  Every arithmetic operation the
  claims exercise (addition, multiplication, division with a nonzero
  denominator, `Math.min`/`Math.max`, clamping) is exact on IEEE doubles up to
  rounding, and the claims speak of equality "within floating-point
  tolerance", so exact rational equality is the faithful reading.  Overflow to
  infinity is outside the value ranges the program manipulates.
* Where the source can produce a non-finite number (division by an unguarded
  zero denominator in `computeInitialPlacement`), the value is modelled as
  `Option ℚ`: `some q` is the finite number `q`, `none` is a non-finite
  result (`NaN` or `±Infinity`).  The lifted operations propagate `none`,
  which agrees with JavaScript on every path reachable in this development:
  the only non-finite source here is `0/0` (`NaN`), and `NaN` propagates
  through `+`, `-`, `*`, `/`, `Math.min` and `Math.max`.
* `Math.hypot(dx, dy) >= t` (for `t ≥ 0`) is rendered as
  `t^2 ≤ dx^2 + dy^2`, avoiding the irrational square root; the two are
  equivalent since both sides are nonnegative.
* React `useState` state is gathered in an explicit `EditorState` record, and
  each handler becomes a pure function from state to state.  The hook options
  (`allowDrawing`, `allowPlacements`) are per-instance constants and are
  passed as arguments.  `crypto.randomUUID()` is an external source of fresh
  identifiers and is passed as an argument as well.
-/

namespace Wylbe

/-- A point in normalized background-image coordinates; the source type
`NormalizedPoint {x, y}` from `src/lib/types.ts`.  The same record shape is
used for raw stage-pixel points (`{x, y}` objects in the source). -/
structure NormalizedPoint where
  x : ℚ
  y : ℚ
deriving DecidableEq, Repr

/-- The background image descriptor `FlyerImage {url, width, height,
fileName}`; `width`/`height` are the natural pixel dimensions. -/
structure FlyerImage where
  url : String
  width : ℚ
  height : ℚ
  fileName : String
deriving DecidableEq, Repr

/-- A user-drawn polygonal zone, `Zone {id, name, points}`. -/
structure Zone where
  id : String
  name : String
  points : List NormalizedPoint
deriving DecidableEq, Repr

/-! ## Geometry module (`src/lib/geometry.ts`) -/

/-- `MIN_POINTS`: minimum number of points for a valid zone. -/
def MIN_POINTS : Nat := 3

/-- `clamp(value, min, max) = Math.min(Math.max(value, min), max)`. -/
def clamp (value lo hi : ℚ) : ℚ :=
  min (max value lo) hi

/-- `normalizedPointFromStage(stagePoint, stageWidth, stageHeight)`: divides
each coordinate by `Math.max(dimension, 1)` and clamps to `[0, 1]`.  The
guarded denominator is at least `1`, so plain rational division is exact. -/
def normalizedPointFromStage (stagePoint : NormalizedPoint)
    (stageWidth stageHeight : ℚ) : NormalizedPoint :=
  let safeWidth := max stageWidth 1
  let safeHeight := max stageHeight 1
  { x := clamp (stagePoint.x / safeWidth) 0 1
    y := clamp (stagePoint.y / safeHeight) 0 1 }

/-- `stagePointFromNormalized(point, stageWidth, stageHeight)`: the unclamped
inverse mapping. -/
def stagePointFromNormalized (point : NormalizedPoint)
    (stageWidth stageHeight : ℚ) : NormalizedPoint :=
  { x := point.x * stageWidth
    y := point.y * stageHeight }

/-- Bounding box returned by `getPolygonBounds`. -/
structure PolygonBounds where
  minX : ℚ
  maxX : ℚ
  minY : ℚ
  maxY : ℚ
  width : ℚ
  height : ℚ
deriving DecidableEq, Repr

/-- `Math.min(...xs)` over a list.  The source yields `Infinity` on an empty
spread; no caller reaches that case (zones carry at least `MIN_POINTS`
points), and the empty case here is the junk value `0`. -/
def listMinQ : List ℚ → ℚ
  | [] => 0
  | x :: xs => xs.foldl min x

/-- `Math.max(...xs)` over a list; empty case as in `listMinQ`. -/
def listMaxQ : List ℚ → ℚ
  | [] => 0
  | x :: xs => xs.foldl max x

/-- `getPolygonBounds(points)`: axis-aligned bounding box over normalized
coordinates. -/
def getPolygonBounds (points : List NormalizedPoint) : PolygonBounds :=
  let xs := points.map (fun p => p.x)
  let ys := points.map (fun p => p.y)
  let minX := listMinQ xs
  let maxX := listMaxQ xs
  let minY := listMinQ ys
  let maxY := listMaxQ ys
  { minX := minX, maxX := maxX, minY := minY, maxY := maxY
    width := maxX - minX, height := maxY - minY }

/-! ## Export pipeline pixel ratio
(`handleExport` in `src/components/editor/FlyerEditor.tsx` and
`src/components/dashboard/FlyerList.tsx`) -/

/-- JavaScript `q || 1` for a finite number `q`: `q` is falsy exactly when it
is `0` (the non-finite falsy case `NaN` never reaches this expression in the
program, since the stage scale is a ratio of finite positives or the default
`1`). -/
def orOne (q : ℚ) : ℚ :=
  if q = 0 then 1 else q

/-- `pixelRatio = Math.max(1 / (stageScaleRef.current || 1), 1)` from the
export handlers. -/
def exportPixelRatio (stageScaleCur : ℚ) : ℚ :=
  max (1 / orOne stageScaleCur) 1

/-! ## JavaScript numbers with non-finite results

`some q` is a finite number, `none` a non-finite one (`NaN`/`±Infinity`).
The only source of `none` in this development is division by zero; the
lifted operations propagate `none` as JavaScript propagates `NaN`. -/

/-- Lifted addition. -/
def jadd : Option ℚ → Option ℚ → Option ℚ
  | some a, some b => some (a + b)
  | _, _ => none

/-- Lifted subtraction. -/
def jsub : Option ℚ → Option ℚ → Option ℚ
  | some a, some b => some (a - b)
  | _, _ => none

/-- Lifted multiplication. -/
def jmul : Option ℚ → Option ℚ → Option ℚ
  | some a, some b => some (a * b)
  | _, _ => none

/-- Lifted division: a zero denominator yields a non-finite number in
JavaScript (`0/0 = NaN`, `q/0 = ±Infinity`), modelled as `none`. -/
def jdiv : Option ℚ → Option ℚ → Option ℚ
  | some a, some b => if b = 0 then none else some (a / b)
  | _, _ => none

/-- Lifted `Math.max` (`Math.max` with a `NaN` argument is `NaN`). -/
def jmax : Option ℚ → Option ℚ → Option ℚ
  | some a, some b => some (max a b)
  | _, _ => none

/-- Lifted `Math.min`. -/
def jmin : Option ℚ → Option ℚ → Option ℚ
  | some a, some b => some (min a b)
  | _, _ => none

/-- Lifted `clamp` from the geometry module. -/
def jclamp (value lo hi : Option ℚ) : Option ℚ :=
  jmin (jmax value lo) hi

/-! ## Initial placement ("cover fit")
(`computeInitialPlacement` in
`src/components/editor/hooks/useFlyerEditorState.ts`) -/

/-- A photo placement, `Placement {zoneId, url, fileName, imageWidth,
imageHeight, position, scale, rotation}`.  `posX`/`posY` and `scale` are
JavaScript numbers that can be non-finite, hence `Option ℚ`. -/
structure Placement where
  zoneId : String
  url : String
  fileName : String
  imageWidth : ℚ
  imageHeight : ℚ
  posX : Option ℚ
  posY : Option ℚ
  scale : Option ℚ
  rotation : ℚ
deriving DecidableEq, Repr

/-- `coverScaleStage = Math.max(zoneStageWidth / imageWidth, zoneStageHeight /
imageHeight)` where `zoneStageWidth = Math.max(bounds.width * stageWidth, 1)`
and `zoneStageHeight = Math.max(bounds.height * stageHeight, 1)`; the first
lines of `computeInitialPlacement`. -/
def coverScaleStage (points : List NormalizedPoint)
    (imageWidth imageHeight sw sh : ℚ) : Option ℚ :=
  jmax
    (jdiv (some (max ((getPolygonBounds points).width * sw) 1))
      (some imageWidth))
    (jdiv (some (max ((getPolygonBounds points).height * sh) 1))
      (some imageHeight))

/-- `computeInitialPlacement(zone, imageWidth, imageHeight, url, fileName)`.
The closure reads `stageWidth`, `stageHeight` and `stageScaleRef.current`
from the hook; they are passed here as the arguments `sw`, `sh` and
`scaleCur`.  The source computes, in order: the zone bounds, the guarded
zone stage dimensions, `coverScaleStage`, `normalizedScale =
coverScaleStage / (stageScaleRef.current || 1)`, the clamp bounds `maxX`/
`maxY`, the centered-and-clamped stage position, and finally the position
normalized by the full (unguarded) stage dimensions. -/
def computeInitialPlacement (zone : Zone) (imageWidth imageHeight : ℚ)
    (url fileName : String) (sw sh scaleCur : ℚ) : Placement :=
  let b := getPolygonBounds zone.points
  let zoneStageWidth : ℚ := max (b.width * sw) 1
  let zoneStageHeight : ℚ := max (b.height * sh) 1
  let cover := coverScaleStage zone.points imageWidth imageHeight sw sh
  let normalizedScale := jdiv cover (some (orOne scaleCur))
  let maxX := jmax (jsub (some sw) (jmul (some imageWidth) cover)) (some 0)
  let maxY := jmax (jsub (some sh) (jmul (some imageHeight) cover)) (some 0)
  let stageX := jclamp
    (jsub (some (b.minX * sw + zoneStageWidth / 2))
      (jdiv (jmul (some imageWidth) cover) (some 2)))
    (some 0) maxX
  let stageY := jclamp
    (jsub (some (b.minY * sh + zoneStageHeight / 2))
      (jdiv (jmul (some imageHeight) cover) (some 2)))
    (some 0) maxY
  { zoneId := zone.id
    url := url
    fileName := fileName
    imageWidth := imageWidth
    imageHeight := imageHeight
    posX := jdiv stageX (some sw)
    posY := jdiv stageY (some sh)
    scale := normalizedScale
    rotation := 0 }

/-! ## Editor state machine
(`useFlyerEditorState` in
`src/components/editor/hooks/useFlyerEditorState.ts`) -/

/-- `MIN_SAMPLE_DISTANCE_PX`: minimum pixel spacing between freehand
samples. -/
def MIN_SAMPLE_DISTANCE_PX : ℚ := 6

/-- The hook's `useState` variables gathered in one record.  The refs
(`currentPointsRef`, `lastPointerRef`, `stageScaleRef`) mirror state or
derived values and are not modelled separately. -/
structure EditorState where
  flyer : Option FlyerImage
  zones : List Zone
  placements : List (String × Placement)
  currentPoints : List NormalizedPoint
  isDrawing : Bool
  isTracing : Bool
  showGuides : Bool
  isExporting : Bool
  selectedZoneId : Option String
  containerWidth : ℚ
deriving DecidableEq, Repr

/-- `stageWidth = flyer && containerWidth > 0 ? containerWidth : 0`. -/
def stageWidth (s : EditorState) : ℚ :=
  match s.flyer with
  | some _ => if 0 < s.containerWidth then s.containerWidth else 0
  | none => 0

/-- `stageScale = flyer && stageWidth > 0 ? stageWidth / flyer.width : 1`. -/
def stageScale (s : EditorState) : ℚ :=
  match s.flyer with
  | some f => if 0 < stageWidth s then stageWidth s / f.width else 1
  | none => 1

/-- `stageHeight = flyer && stageWidth > 0 ? flyer.height * stageScale : 0`. -/
def stageHeight (s : EditorState) : ℚ :=
  match s.flyer with
  | some f => if 0 < stageWidth s then f.height * stageScale s else 0
  | none => 0

/-- JavaScript `delete record[key]` on a `Record<string, Placement>`,
with the record as an association list. -/
def recordDelete (m : List (String × Placement)) (k : String) :
    List (String × Placement) :=
  m.filter (fun e => e.1 != k)

/-- `setFlyerImage(nextFlyer)`: installs the new background image (or null)
and fully resets dependent state — zones, placements, the in-progress point
buffer, the drawing and tracing flags, guide visibility and the selection.
`isExporting` and the measured container width are untouched. -/
def setFlyerImage (s : EditorState) (nextFlyer : Option FlyerImage) :
    EditorState :=
  { s with
    flyer := nextFlyer
    placements := []
    zones := []
    currentPoints := []
    isDrawing := false
    isTracing := false
    showGuides := true
    selectedZoneId := none }

/-- Squared pixel distance between two normalized points at the given stage
size: `(Math.hypot((p.x - q.x) * sw, (p.y - q.y) * sh))²`. -/
def pixelDistSq (sw sh : ℚ) (p q : NormalizedPoint) : ℚ :=
  ((p.x - q.x) * sw) ^ 2 + ((p.y - q.y) * sh) ^ 2

/-- Tail of the finalization re-filter: keep a point when its pixel distance
from the previously *kept* point is at least `MIN_SAMPLE_DISTANCE_PX / 2`.
The comparison `Math.hypot(...) >= t` is rendered as `t² ≤ distSq`. -/
def refilterAux (sw sh : ℚ) (prev : NormalizedPoint) :
    List NormalizedPoint → List NormalizedPoint
  | [] => []
  | p :: rest =>
    if (MIN_SAMPLE_DISTANCE_PX / 2) ^ 2 ≤ pixelDistSq sw sh p prev then
      p :: refilterAux sw sh p rest
    else
      refilterAux sw sh prev rest

/-- The `points.reduce(...)` re-filter inside `finalizeZone`: the first point
is always kept, then `refilterAux` walks the rest against the last kept
point. -/
def refilterPoints (sw sh : ℚ) : List NormalizedPoint →
    List NormalizedPoint
  | [] => []
  | p :: rest => p :: refilterAux sw sh p rest

/-- `finalizeZone(points)`: rejects when drawing is disallowed, when fewer
than `MIN_POINTS` raw points were captured, or when fewer than `MIN_POINTS`
survive the re-filter; otherwise appends a new zone named
`"Zone " + (zones.length + 1)` with the filtered points, defensively deletes
any placement keyed to the fresh id, selects the new zone, clears the point
buffer and exits drawing mode.  The source returns a success boolean and
mutates the hook state; here it returns the boolean paired with the next
state.  `newId` stands for `crypto.randomUUID()`. -/
def finalizeZone (allowDrawing : Bool) (newId : String) (s : EditorState)
    (points : List NormalizedPoint) : Bool × EditorState :=
  if !allowDrawing then (false, s)
  else if points.length < MIN_POINTS then (false, s)
  else
    let filtered := refilterPoints (stageWidth s) (stageHeight s) points
    if filtered.length < MIN_POINTS then (false, s)
    else
      let newZone : Zone :=
        { id := newId
          name := "Zone " ++ toString (s.zones.length + 1)
          points := filtered }
      (true,
        { s with
          zones := s.zones ++ [newZone]
          placements := recordDelete s.placements newId
          selectedZoneId := some newId
          currentPoints := []
          isDrawing := false })

/-- `finishFreehand()`: a no-op unless tracing; otherwise stops tracing,
hands the buffered points to `finalizeZone`, and clears the buffer when
finalization fails (on success `finalizeZone` already cleared it). -/
def finishFreehand (allowDrawing : Bool) (newId : String)
    (s : EditorState) : EditorState :=
  if !s.isTracing then s
  else
    let s1 := { s with isTracing := false }
    let res := finalizeZone allowDrawing newId s1 s.currentPoints
    if res.1 then res.2 else { res.2 with currentPoints := [] }

/-- `handleRemoveZone(zoneId)`: filters the zone out of the list; when
placements are disabled for the instance it returns right there, otherwise
it also deletes the placement keyed to the zone id and clears the selection
if the removed zone was selected. -/
def handleRemoveZone (allowPlacements : Bool) (s : EditorState)
    (zoneId : String) : EditorState :=
  let s1 := { s with zones := s.zones.filter (fun z => z.id != zoneId) }
  if !allowPlacements then s1
  else
    { s1 with
      placements := recordDelete s1.placements zoneId
      selectedZoneId :=
        if s1.selectedZoneId = some zoneId then none else s1.selectedZoneId }

/-! ## Persisted-zone parsing
(`cloneZones` and `parseDocumentZones` in the remote storage module)

The persisted payload is dynamically typed; the model classifies each field
by exactly the tests the source performs on it. -/

/-- A `Number(v)` coercion result: a finite number or a non-finite one
(`NaN`/`±Infinity`); the source keeps a coordinate only when
`Number.isFinite` holds for it. -/
inductive JNum where
  | fin (q : ℚ)
  | nonfin
deriving DecidableEq, Repr

/-- A persisted point coordinate: `undef` when
`typeof point.x === "undefined"`, otherwise the value with its numeric
coercion. -/
inductive JCoord where
  | undef
  | val (n : JNum)
deriving DecidableEq, Repr

/-- An entry of a persisted `points` array: `falsy` entries (e.g. `null`)
fail the source's `point &&` truthiness test; `obj` carries the two
coordinate fields. -/
inductive JPointEntry where
  | falsy
  | obj (x y : JCoord)
deriving DecidableEq, Repr

/-- A persisted `points` field: `Array.isArray` fails (`notArr`) or an
array of entries. -/
inductive JPoints where
  | notArr
  | arr (entries : List JPointEntry)
deriving DecidableEq, Repr

/-- A persisted `id`/`name` field as seen by `typeof === "string"`: a
string, or anything else (including `undefined` from a nullish record). -/
inductive JField where
  | str (s : String)
  | notStr
deriving DecidableEq, Repr

/-- A raw persisted zone record (`ZoneLike` in the source).  A `null` array
element is represented with `notStr` fields, matching `zone?.id` being
`undefined` there. -/
structure ZoneLike where
  id : JField
  name : JField
  points : JPoints
deriving DecidableEq, Repr

/-- The body of the source's inner `points.map(...)`: keep the pair exactly
when the record is truthy, both coordinates are defined, and both numeric
coercions are finite; the subsequent `.filter(point => point !== null)` is
the `filterMap` in `cloneZonePoints`. -/
def clonePoint : JPointEntry → Option NormalizedPoint
  | JPointEntry.obj (JCoord.val (JNum.fin x)) (JCoord.val (JNum.fin y)) =>
    some ⟨x, y⟩
  | _ => none

/-- The entries of a persisted points field (`[]` when not an array). -/
def entriesOf : JPoints → List JPointEntry
  | JPoints.notArr => []
  | JPoints.arr es => es

/-- `Array.isArray(zone.points) ? zone.points.map(...).filter(...) : []`. -/
def cloneZonePoints : JPoints → List NormalizedPoint
  | JPoints.notArr => []
  | JPoints.arr es => es.filterMap clonePoint

/-- `cloneZones(zones)`: the source filters with the type guard
`typeof zone?.id === "string" && typeof zone?.name === "string"` and then
maps to a cleaned record; filter-then-map over the guard is rendered as one
`filterMap`. -/
def cloneZones (zones : List ZoneLike) : List Zone :=
  zones.filterMap (fun z =>
    match z.id, z.name with
    | JField.str i, JField.str n => some ⟨i, n, cloneZonePoints z.points⟩
    | _, _ => none)

/-- Outcome of `JSON.parse` on a persisted zones string, carried as data:
an array (element list), some non-array value, or a parse exception (caught
and logged by the source). -/
inductive ParseOutcome where
  | parsedArr (zs : List ZoneLike)
  | parsedOther
  | parseFailed
deriving DecidableEq, Repr

/-- The dynamic type of `document.zones` (`Zone[] | string | null`):
falsy (`nullish`), an array, or a string with its parse outcome. -/
inductive ZonesValue where
  | nullish
  | arrv (zs : List ZoneLike)
  | strv (outcome : ParseOutcome)
deriving DecidableEq, Repr

/-- `parseDocumentZones(value)`: `[]` for falsy values, `cloneZones` for
arrays, `cloneZones` of the parsed array for strings that parse to an
array, `[]` for strings that parse to anything else or fail to parse. -/
def parseDocumentZones : ZonesValue → List Zone
  | ZonesValue.nullish => []
  | ZonesValue.arrv zs => cloneZones zs
  | ZonesValue.strv (ParseOutcome.parsedArr zs) => cloneZones zs
  | ZonesValue.strv ParseOutcome.parsedOther => []
  | ZonesValue.strv ParseOutcome.parseFailed => []

/-- The raw zone records a `document.zones` value can contribute. -/
def zoneCandidates : ZonesValue → List ZoneLike
  | ZonesValue.nullish => []
  | ZonesValue.arrv zs => zs
  | ZonesValue.strv (ParseOutcome.parsedArr zs) => zs
  | ZonesValue.strv ParseOutcome.parsedOther => []
  | ZonesValue.strv ParseOutcome.parseFailed => []

/-! ## Concrete fixtures used by witnesses and counterexamples -/

/-- A persisted zone record with string id and name and a points array
mixing one fully finite point with a falsy entry, a missing coordinate and
a non-finite coordinate. -/
def goodZoneLike : ZoneLike :=
  { id := JField.str "g"
    name := JField.str "Bonne"
    points := JPoints.arr
      [JPointEntry.obj (JCoord.val (JNum.fin 0)) (JCoord.val (JNum.fin 1)),
        JPointEntry.falsy,
        JPointEntry.obj JCoord.undef (JCoord.val (JNum.fin 0)),
        JPointEntry.obj (JCoord.val JNum.nonfin)
          (JCoord.val (JNum.fin (1 / 2)))] }

/-- A malformed persisted zone record: its id is not a string. -/
def badZoneLike : ZoneLike :=
  { id := JField.notStr, name := JField.str "Cassee", points := JPoints.notArr }

/-- A persisted `document.zones` array holding one malformed and one
well-formed record. -/
def demoZonesValue : ZonesValue :=
  ZonesValue.arrv [badZoneLike, goodZoneLike]

/-- The cleaned zone the load path produces from `goodZoneLike`. -/
def goodZoneClean : Zone :=
  { id := "g", name := "Bonne", points := [⟨0, 1⟩] }

/-- A session with a loaded 1000×500 flyer in a 1000 px container
(`stageScale = 1`), nothing drawn yet. -/
def baseState : EditorState :=
  { flyer := some ⟨"flyer.png", 1000, 500, "flyer.png"⟩
    zones := []
    placements := []
    currentPoints := []
    isDrawing := false
    isTracing := false
    showGuides := true
    isExporting := false
    selectedZoneId := none
    containerWidth := 1000 }

/-- Three well-spread normalized points (pairwise pixel distance far above
the re-filter threshold at the fixture's stage size). -/
def demoPoints : List NormalizedPoint :=
  [⟨0, 0⟩, ⟨1 / 2, 0⟩, ⟨1 / 2, 1 / 2⟩]

/-- A unit-bounding-box zone over `demoPoints`-like geometry. -/
def demoZone : Zone :=
  { id := "z", name := "Zone 1", points := [⟨0, 0⟩, ⟨1, 0⟩, ⟨1, 1⟩] }

/-- A degenerate 1/500 × 1/500 zone: its stage-pixel bounding box stays
below one pixel at moderate container widths, engaging the `max(...,1)`
guards of `computeInitialPlacement`. -/
def tinyZone : Zone :=
  { id := "t", name := "Zone 1"
    points := [⟨0, 0⟩, ⟨1 / 500, 0⟩, ⟨1 / 500, 1 / 500⟩] }

/-- `baseState` mid-trace with three coincident buffered points (the
re-filter collapses them to one). -/
def stalledTraceState : EditorState :=
  { baseState with
    isTracing := true
    currentPoints := [⟨0, 0⟩, ⟨0, 0⟩, ⟨0, 0⟩] }

/-- `baseState` with one zone, a placement keyed to it, and that zone
selected. -/
def selectedZoneState : EditorState :=
  { baseState with
    zones := [⟨"z1", "Zone 1", demoZone.points⟩]
    placements := [("z1", ⟨"z1", "u", "f", 10, 10, some 0, some 0, some 1, 0⟩)]
    selectedZoneId := some "z1" }

/-- `baseState` measured at container width 800 (`stageScale = 4/5`). -/
def stateW800 : EditorState :=
  { baseState with containerWidth := 800 }

/-- `baseState` measured at container width 400 (`stageScale = 2/5`). -/
def stateW400 : EditorState :=
  { baseState with containerWidth := 400 }

/-- `baseState` with one zone named `"Zone 1"`. -/
def oneZoneState : EditorState :=
  { baseState with zones := [⟨"a", "Zone 1", demoZone.points⟩] }

/-! ## Claim theorems (geometry and export) -/

/-- C1, counterexample: the round-trip claim fails for positive stage
dimensions below `1`.  With `p = (1/2, 1/2)` and stage `w = h = 1/2` (both
positive, `p` inside `[0,1]²`), `stagePointFromNormalized` yields
`(1/4, 1/4)` and `normalizedPointFromStage` then divides by
`max(1/2, 1) = 1`, returning `(1/4, 1/4) ≠ (1/2, 1/2)` — off by `1/4`, far
beyond floating-point tolerance. -/
theorem roundtrip_fails_below_one_px :
    (0 : ℚ) < 1 / 2 ∧ (0 : ℚ) ≤ 1 / 2 ∧ (1 / 2 : ℚ) ≤ 1 ∧
      normalizedPointFromStage
        (stagePointFromNormalized ⟨1 / 2, 1 / 2⟩ (1 / 2) (1 / 2))
        (1 / 2) (1 / 2) ≠ ⟨1 / 2, 1 / 2⟩ := by
  refine ⟨by norm_num, by norm_num, by norm_num, ?_⟩
  have hmax : max (1 / 2 : ℚ) 1 = 1 := by
    rw [max_eq_right]; norm_num
  simp only [normalizedPointFromStage, stagePointFromNormalized, clamp, hmax]
  intro h
  have hx := congrArg NormalizedPoint.x h
  norm_num [max_def, min_def] at hx

/-- C1, amended: for every point `p` with both coordinates in `[0,1]` and
stage dimensions `w, h ≥ 1` (rather than merely positive),
`normalizedPointFromStage (stagePointFromNormalized p w h) w h = p`
exactly. -/
theorem roundtrip_normalization (p : NormalizedPoint) (w h : ℚ)
    (hw : 1 ≤ w) (hh : 1 ≤ h)
    (hx0 : 0 ≤ p.x) (hx1 : p.x ≤ 1) (hy0 : 0 ≤ p.y) (hy1 : p.y ≤ 1) :
    normalizedPointFromStage (stagePointFromNormalized p w h) w h = p := by
  have hw0 : w ≠ 0 := by positivity
  have hh0 : h ≠ 0 := by positivity
  have hmw : max w 1 = w := max_eq_left hw
  have hmh : max h 1 = h := max_eq_left hh
  simp only [normalizedPointFromStage, stagePointFromNormalized, clamp,
    hmw, hmh, mul_div_cancel_right₀ _ hw0, mul_div_cancel_right₀ _ hh0]
  cases p with
  | mk x y =>
    simp only [NormalizedPoint.mk.injEq]
    constructor
    · rw [max_eq_left hx0, min_eq_left hx1]
    · rw [max_eq_left hy0, min_eq_left hy1]

/-- C1 witness: the amended round-trip theorem applied at
`p = (1/2, 1/2)`, `w = 2`, `h = 3`. -/
theorem roundtrip_normalization_witness :
    normalizedPointFromStage
      (stagePointFromNormalized ⟨1 / 2, 1 / 2⟩ 2 3) 2 3 = ⟨1 / 2, 1 / 2⟩ :=
  roundtrip_normalization ⟨1 / 2, 1 / 2⟩ 2 3 (by norm_num) (by norm_num)
    (by norm_num) (by norm_num) (by norm_num) (by norm_num)

/-- C9: the export pixel ratio `max(1 / (stageScale || 1), 1)` is at least
`1` for every (finite) current stage-scale value, so export never rasterizes
below the flyer's natural resolution. -/
theorem exportPixelRatio_ge_one (stageScaleCur : ℚ) :
    1 ≤ exportPixelRatio stageScaleCur :=
  le_max_right _ _

/-- C3: for every zone and image with positive dimensions, the cover scale
computed by `computeInitialPlacement` is a finite number `c` with
`c * imageWidth ≥ bounds.width * stageWidth` and `c * imageHeight ≥
bounds.height * stageHeight`: the scaled image covers the zone's bounding
box on both axes (exactly, hence within any tolerance `ε ≥ 0`). -/
theorem coverScale_covers_zone (zone : Zone) (iw ih sw sh : ℚ)
    (hiw : 0 < iw) (hih : 0 < ih) :
    ∃ c, coverScaleStage zone.points iw ih sw sh = some c ∧
      (getPolygonBounds zone.points).width * sw ≤ c * iw ∧
      (getPolygonBounds zone.points).height * sh ≤ c * ih := by
  set b := getPolygonBounds zone.points
  refine ⟨max (max (b.width * sw) 1 / iw) (max (b.height * sh) 1 / ih),
    ?_, ?_, ?_⟩
  · simp [coverScaleStage, jmax, jdiv, hiw.ne', hih.ne', b]
  · calc b.width * sw ≤ max (b.width * sw) 1 := le_max_left _ _
      _ ≤ max (max (b.width * sw) 1 / iw) (max (b.height * sh) 1 / ih) * iw := by
        rw [← div_le_iff₀ hiw]
        exact le_max_left _ _
  · calc b.height * sh ≤ max (b.height * sh) 1 := le_max_left _ _
      _ ≤ max (max (b.width * sw) 1 / iw) (max (b.height * sh) 1 / ih) * ih := by
        rw [← div_le_iff₀ hih]
        exact le_max_right _ _

/-- C3 witness: the cover-fit theorem applied at a concrete unit-triangle
zone, a 2×2 image and a 10×10 stage. -/
theorem coverScale_covers_zone_witness :
    (0 : ℚ) < 2 ∧
      ∃ c, coverScaleStage [⟨0, 0⟩, ⟨1, 0⟩, ⟨1, 1⟩] 2 2 10 10 = some c ∧
        (getPolygonBounds [⟨0, 0⟩, ⟨1, 0⟩, ⟨1, 1⟩]).width * 10 ≤ c * 2 ∧
        (getPolygonBounds [⟨0, 0⟩, ⟨1, 0⟩, ⟨1, 1⟩]).height * 10 ≤ c * 2 :=
  ⟨by norm_num,
    coverScale_covers_zone ⟨"z", "Zone 1", [⟨0, 0⟩, ⟨1, 0⟩, ⟨1, 1⟩]⟩ 2 2 10 10
      (by norm_num) (by norm_num)⟩

/-- Dividing by a finite zero is non-finite, whatever the numerator. -/
theorem jdiv_zero_right (a : Option ℚ) : jdiv a (some 0) = none := by
  cases a <;> simp [jdiv]

/-- C10: when `computeInitialPlacement` runs on an unmeasured stage
(`stageWidth = 0` and `stageHeight = 0`), the returned placement's
normalized position coordinates are non-finite: the `max(...,1)` guards
protect only the zone's stage dimensions, and the final normalization
divides the clamped stage position by the unguarded stage dimensions,
producing `0/0`. -/
theorem unmeasured_stage_position_nonfinite (zone : Zone)
    (iw ih : ℚ) (url fileName : String) (scaleCur : ℚ) :
    (computeInitialPlacement zone iw ih url fileName 0 0 scaleCur).posX =
        none ∧
      (computeInitialPlacement zone iw ih url fileName 0 0 scaleCur).posY =
        none := by
  constructor <;>
    simp only [computeInitialPlacement, jdiv_zero_right]

/-- C2: `setFlyerImage` (with a new image or `null`) always yields a state
with no zones, no placements, an empty in-progress buffer, both drawing
flags off, no selection and guides visible — in particular any prior zones
and placements are cleared. -/
theorem setFlyerImage_resets (s : EditorState) (next : Option FlyerImage) :
    (setFlyerImage s next).zones = [] ∧
      (setFlyerImage s next).placements = [] ∧
      (setFlyerImage s next).currentPoints = [] ∧
      (setFlyerImage s next).isDrawing = false ∧
      (setFlyerImage s next).isTracing = false ∧
      (setFlyerImage s next).selectedZoneId = none ∧
      (setFlyerImage s next).showGuides = true :=
  ⟨rfl, rfl, rfl, rfl, rfl, rfl, rfl⟩

/-- Helper: `finalizeZone` rejects without touching the state whenever the
re-filtered buffer is still short of `MIN_POINTS`. -/
theorem finalizeZone_too_few (ad : Bool) (nid : String) (s : EditorState)
    (pts : List NormalizedPoint)
    (h : (refilterPoints (stageWidth s) (stageHeight s) pts).length <
      MIN_POINTS) :
    finalizeZone ad nid s pts = (false, s) := by
  unfold finalizeZone
  split
  · rfl
  · split
    · rfl
    · rw [if_pos h]

/-- C5: when the buffered trace still has fewer than `MIN_POINTS` points
after the tighter re-filter, finalization never creates a zone:
`finalizeZone` returns failure and leaves the state untouched, and
`finishFreehand` merely stops tracing and clears the buffer — the zone list
is unchanged and no error is surfaced (every path is a total, silent
no-op). -/
theorem short_trace_is_silently_discarded (ad : Bool) (nid : String)
    (s : EditorState)
    (h : (refilterPoints (stageWidth s) (stageHeight s) s.currentPoints).length
      < MIN_POINTS)
    (ht : s.isTracing = true) :
    finalizeZone ad nid s s.currentPoints = (false, s) ∧
      (finishFreehand ad nid s).zones = s.zones ∧
      finishFreehand ad nid s =
        { s with isTracing := false, currentPoints := [] } := by
  have h1 : finalizeZone ad nid s s.currentPoints = (false, s) :=
    finalizeZone_too_few ad nid s s.currentPoints h
  have h1' :
      finalizeZone ad nid { s with isTracing := false } s.currentPoints =
        (false, { s with isTracing := false }) :=
    finalizeZone_too_few ad nid { s with isTracing := false } s.currentPoints h
  have h2 : finishFreehand ad nid s =
      { s with isTracing := false, currentPoints := [] } := by
    unfold finishFreehand
    rw [ht]
    simp only [Bool.not_true, Bool.false_eq_true, if_false, h1']
  exact ⟨h1, by rw [h2], h2⟩

/-- C5 witness: the silent-discard theorem applied to `stalledTraceState`,
whose three coincident buffered points re-filter down to a single point. -/
theorem short_trace_is_silently_discarded_witness :
    (refilterPoints (stageWidth stalledTraceState)
        (stageHeight stalledTraceState)
        stalledTraceState.currentPoints).length < MIN_POINTS ∧
      finishFreehand true "za" stalledTraceState =
        { stalledTraceState with isTracing := false, currentPoints := [] } := by
  have h : (refilterPoints (stageWidth stalledTraceState)
      (stageHeight stalledTraceState)
      stalledTraceState.currentPoints).length < MIN_POINTS := by
    norm_num [refilterPoints, refilterAux, pixelDistSq, stalledTraceState,
      baseState, stageWidth, stageHeight, stageScale, MIN_SAMPLE_DISTANCE_PX,
      MIN_POINTS]
  exact ⟨h,
    (short_trace_is_silently_discarded true "za" stalledTraceState h rfl).2.2⟩

/-- C6, counterexample: with placements disabled for the instance (the
zone-builder page runs the hook with `allowPlacements: false`),
`handleRemoveZone` returns immediately after filtering the zone list, so
removing the currently selected zone does *not* clear the selection: on a
state whose only zone `"z1"` is selected, the zone is gone afterwards but
the selection still points at it. -/
theorem removal_keeps_selection_when_placements_disabled :
    selectedZoneState.selectedZoneId = some "z1" ∧
      (∀ z ∈ (handleRemoveZone false selectedZoneState "z1").zones,
        z.id ≠ "z1") ∧
      (handleRemoveZone false selectedZoneState "z1").selectedZoneId =
        some "z1" := by
  refine ⟨rfl, ?_, rfl⟩
  decide

/-- C6, amended: `handleRemoveZone` always removes exactly the zones carrying
the given id from the zone list; when placements are enabled it also removes
any placement keyed to that id and clears the selection if the removed zone
was selected; when placements are disabled it leaves both the placement map
and the selection untouched (even if the removed zone was selected). -/
theorem handleRemoveZone_spec (ap : Bool) (s : EditorState)
    (zoneId : String) :
    (∀ z ∈ (handleRemoveZone ap s zoneId).zones, z.id ≠ zoneId) ∧
      (∀ z ∈ s.zones, z.id ≠ zoneId →
        z ∈ (handleRemoveZone ap s zoneId).zones) ∧
      (ap = true → ∀ e ∈ (handleRemoveZone ap s zoneId).placements,
        e.1 ≠ zoneId) ∧
      (ap = true → s.selectedZoneId = some zoneId →
        (handleRemoveZone ap s zoneId).selectedZoneId = none) ∧
      (ap = false → (handleRemoveZone ap s zoneId).placements = s.placements ∧
        (handleRemoveZone ap s zoneId).selectedZoneId = s.selectedZoneId) := by
  cases ap with
  | false =>
    have hz : handleRemoveZone false s zoneId =
        { s with zones := s.zones.filter (fun z => z.id != zoneId) } := rfl
    rw [hz]
    refine ⟨?_, ?_, by simp, by simp, fun _ => ⟨rfl, rfl⟩⟩
    · intro z hzz
      simp only [List.mem_filter, bne_iff_ne, ne_eq, decide_not,
        Bool.not_eq_eq_eq_not, Bool.not_true, decide_eq_false_iff_not] at hzz
      exact hzz.2
    · intro z hzz hne
      simp only [List.mem_filter, bne_iff_ne, ne_eq, decide_not,
        Bool.not_eq_eq_eq_not, Bool.not_true, decide_eq_false_iff_not]
      exact ⟨hzz, hne⟩
  | true =>
    have hz : handleRemoveZone true s zoneId =
        { s with
          zones := s.zones.filter (fun z => z.id != zoneId)
          placements := recordDelete s.placements zoneId
          selectedZoneId :=
            if s.selectedZoneId = some zoneId then none
            else s.selectedZoneId } := rfl
    rw [hz]
    refine ⟨?_, ?_, ?_, ?_, by simp⟩
    · intro z hzz
      simp only [List.mem_filter, bne_iff_ne, ne_eq, decide_not,
        Bool.not_eq_eq_eq_not, Bool.not_true, decide_eq_false_iff_not] at hzz
      exact hzz.2
    · intro z hzz hne
      simp only [List.mem_filter, bne_iff_ne, ne_eq, decide_not,
        Bool.not_eq_eq_eq_not, Bool.not_true, decide_eq_false_iff_not]
      exact ⟨hzz, hne⟩
    · intro _ e he
      simp only [recordDelete, List.mem_filter, bne_iff_ne, ne_eq, decide_not,
        Bool.not_eq_eq_eq_not, Bool.not_true, decide_eq_false_iff_not] at he
      exact he.2
    · intro _ hsel
      simp only [hsel, if_pos]

/-- C6 witness: the amended removal theorem applied to `selectedZoneState`
with placements enabled — the placement keyed `"z1"` is gone and the
selection is cleared. -/
theorem handleRemoveZone_spec_witness :
    selectedZoneState.selectedZoneId = some "z1" ∧
      (handleRemoveZone true selectedZoneState "z1").selectedZoneId = none ∧
      ∀ e ∈ (handleRemoveZone true selectedZoneState "z1").placements,
        e.1 ≠ "z1" := by
  have h := handleRemoveZone_spec true selectedZoneState "z1"
  exact ⟨rfl, h.2.2.2.1 rfl rfl, h.2.2.1 rfl⟩

/-- Helper: the stage width of a measured session is the container width. -/
theorem stageWidth_measured (s : EditorState) (f : FlyerImage)
    (hf : s.flyer = some f) (hw : 0 < s.containerWidth) :
    stageWidth s = s.containerWidth := by
  simp [stageWidth, hf, hw]

/-- Helper: the stage scale of a measured session. -/
theorem stageScale_measured (s : EditorState) (f : FlyerImage)
    (hf : s.flyer = some f) (hw : 0 < s.containerWidth) :
    stageScale s = s.containerWidth / f.width := by
  simp [stageScale, hf, stageWidth_measured s f hf hw, hw]

/-- Helper: the stage height of a measured session. -/
theorem stageHeight_measured (s : EditorState) (f : FlyerImage)
    (hf : s.flyer = some f) (hw : 0 < s.containerWidth) :
    stageHeight s = f.height * (s.containerWidth / f.width) := by
  simp [stageHeight, hf, stageWidth_measured s f hf hw, hw,
    stageScale_measured s f hf hw]

/-- Helper: `demoPoints` all survive the finalization re-filter at a
1000×500 stage. -/
theorem refilter_demoPoints : refilterPoints 1000 500 demoPoints = demoPoints := by
  norm_num [refilterPoints, refilterAux, pixelDistSq, demoPoints,
    MIN_SAMPLE_DISTANCE_PX]

/-- Helper: the exact result of a successful `finalizeZone`. -/
theorem finalizeZone_success (ad : Bool) (nid : String) (s : EditorState)
    (pts : List NormalizedPoint) (had : ad = true)
    (hlen : ¬pts.length < MIN_POINTS)
    (hfil : ¬(refilterPoints (stageWidth s) (stageHeight s) pts).length <
      MIN_POINTS) :
    finalizeZone ad nid s pts =
      (true,
        { s with
          zones := s.zones ++
            [⟨nid, "Zone " ++ toString (s.zones.length + 1),
              refilterPoints (stageWidth s) (stageHeight s) pts⟩]
          placements := recordDelete s.placements nid
          selectedZoneId := some nid
          currentPoints := []
          isDrawing := false }) := by
  subst had
  simp only [finalizeZone, Bool.not_true, Bool.false_eq_true, if_false,
    hlen, hfil, ite_false]

/-- C7, amended: every zone created by a successful finalization is
auto-named `"Zone N"` with `N` equal to the zone count at creation time
plus one; but because `N` is derived from the *current* count, names can be
reused after a deletion (see the counterexample). -/
theorem finalizeZone_autoname (ad : Bool) (nid : String) (s : EditorState)
    (pts : List NormalizedPoint)
    (h : (finalizeZone ad nid s pts).1 = true) :
    (finalizeZone ad nid s pts).2.zones.map Zone.name =
      s.zones.map Zone.name ++ ["Zone " ++ toString (s.zones.length + 1)] := by
  simp only [finalizeZone] at h ⊢
  split_ifs at h ⊢
  all_goals simp_all

/-- C7 witness: the auto-name theorem applied to a successful finalization
over `baseState` (zero prior zones), producing the name `"Zone 1"`. -/
theorem finalizeZone_autoname_witness :
    (finalizeZone true "w" baseState demoPoints).1 = true ∧
      (finalizeZone true "w" baseState demoPoints).2.zones.map Zone.name =
        ["Zone 1"] := by
  have hsw : stageWidth baseState = 1000 :=
    stageWidth_measured baseState _ rfl (by norm_num [baseState])
  have hsh : stageHeight baseState = 500 := by
    rw [stageHeight_measured baseState _ rfl (by norm_num [baseState])]
    norm_num [baseState]
  have hfil : ¬(refilterPoints (stageWidth baseState) (stageHeight baseState)
      demoPoints).length < MIN_POINTS := by
    rw [hsw, hsh, refilter_demoPoints]
    norm_num [demoPoints, MIN_POINTS]
  have hs := finalizeZone_success true "w" baseState demoPoints rfl
    (by norm_num [demoPoints, MIN_POINTS]) hfil
  constructor
  · rw [hs]
  · have h := finalizeZone_autoname true "w" baseState demoPoints
      (by rw [hs])
    rw [h]
    rfl

/-- C7, counterexample: names *are* reused after deletion.  Starting from a
session holding `"Zone 1"`, finalizing a trace creates a zone named
`"Zone 2"`; deleting that zone and finalizing another trace creates a
different zone that is again named `"Zone 2"` — the supposedly retired name
is reused (the auto-name depends only on the current zone count). -/
theorem zone_names_reused_after_deletion :
    ((finalizeZone true "b" oneZoneState demoPoints).2.zones.map Zone.name =
        ["Zone 1", "Zone 2"]) ∧
      ((handleRemoveZone true
          (finalizeZone true "b" oneZoneState demoPoints).2 "b").zones.map
          Zone.name = ["Zone 1"]) ∧
      ((finalizeZone true "c"
          (handleRemoveZone true
            (finalizeZone true "b" oneZoneState demoPoints).2 "b")
          demoPoints).2.zones.map Zone.name = ["Zone 1", "Zone 2"]) := by
  have hone : oneZoneState.containerWidth = 1000 := rfl
  have hsw : stageWidth oneZoneState = 1000 :=
    stageWidth_measured oneZoneState _ rfl (by norm_num [oneZoneState, baseState])
  have hsh : stageHeight oneZoneState = 500 := by
    rw [stageHeight_measured oneZoneState _ rfl
      (by norm_num [oneZoneState, baseState])]
    norm_num [oneZoneState, baseState]
  have hlen : ¬demoPoints.length < MIN_POINTS := by
    norm_num [demoPoints, MIN_POINTS]
  have hfil1 : ¬(refilterPoints (stageWidth oneZoneState)
      (stageHeight oneZoneState) demoPoints).length < MIN_POINTS := by
    rw [hsw, hsh, refilter_demoPoints]
    norm_num [demoPoints, MIN_POINTS]
  have h1 := finalizeZone_success true "b" oneZoneState demoPoints rfl hlen
    hfil1
  have h1' : (finalizeZone true "b" oneZoneState demoPoints).2 =
      { oneZoneState with
        zones := [⟨"a", "Zone 1", demoZone.points⟩,
          ⟨"b", "Zone 2", demoPoints⟩]
        placements := []
        selectedZoneId := some "b"
        currentPoints := []
        isDrawing := false } := by
    rw [h1, hsw, hsh, refilter_demoPoints]
    simp only [oneZoneState, baseState, recordDelete]
    rfl
  have h2 : (handleRemoveZone true
      (finalizeZone true "b" oneZoneState demoPoints).2 "b") =
      { oneZoneState with
        zones := [⟨"a", "Zone 1", demoZone.points⟩]
        placements := []
        selectedZoneId := none
        currentPoints := []
        isDrawing := false } := by
    rw [h1']
    simp [handleRemoveZone, recordDelete]
  refine ⟨by rw [h1']; rfl, by rw [h2]; rfl, ?_⟩
  rw [h2]
  set s2 : EditorState :=
    { oneZoneState with
      zones := [⟨"a", "Zone 1", demoZone.points⟩]
      placements := []
      selectedZoneId := none
      currentPoints := []
      isDrawing := false } with hs2
  have hsw2 : stageWidth s2 = 1000 :=
    stageWidth_measured s2 _ rfl (by norm_num [hs2, oneZoneState, baseState])
  have hsh2 : stageHeight s2 = 500 := by
    rw [stageHeight_measured s2 _ rfl
      (by norm_num [hs2, oneZoneState, baseState])]
    norm_num [hs2, oneZoneState, baseState]
  have hfil2 : ¬(refilterPoints (stageWidth s2) (stageHeight s2)
      demoPoints).length < MIN_POINTS := by
    rw [hsw2, hsh2, refilter_demoPoints]
    norm_num [demoPoints, MIN_POINTS]
  have h3 := finalizeZone_success true "c" s2 demoPoints rfl hlen hfil2
  rw [h3]
  simp only [hs2]
  rfl

/-- Helper: closed form of the stored (normalized) scale when the flyer is
measured and none of the `max(...,1)` zone-size guards engage: it depends
only on the zone bounds, the flyer's natural dimensions and the image
dimensions — not on the container width `W`. -/
theorem normalizedScale_eval (points : List NormalizedPoint)
    (iw ih fw fh W : ℚ) (hW : 0 < W) (hfw : 0 < fw) (hiw : 0 < iw)
    (hih : 0 < ih)
    (hbw : 1 ≤ (getPolygonBounds points).width * W)
    (hbh : 1 ≤ (getPolygonBounds points).height * (fh * (W / fw))) :
    jdiv (coverScaleStage points iw ih W (fh * (W / fw)))
        (some (orOne (W / fw))) =
      some (max ((getPolygonBounds points).width * fw / iw)
        ((getPolygonBounds points).height * fh / ih)) := by
  set b := getPolygonBounds points with hb
  have hWfw : (0 : ℚ) < W / fw := div_pos hW hfw
  have hW0 : W ≠ 0 := hW.ne'
  have hfw0 : fw ≠ 0 := hfw.ne'
  have hiw0 : iw ≠ 0 := hiw.ne'
  have hih0 : ih ≠ 0 := hih.ne'
  have h1 : max (b.width * W) 1 = b.width * W := max_eq_left hbw
  have h2 : max (b.height * (fh * (W / fw))) 1 =
      b.height * (fh * (W / fw)) := max_eq_left hbh
  simp only [coverScaleStage, jdiv, jmax, orOne, ← hb, h1, h2,
    if_neg hiw0, if_neg hih0, if_neg hWfw.ne']
  have e1 : b.width * W / iw / (W / fw) = b.width * fw / iw := by
    field_simp
    ring
  have e2 : b.height * (fh * (W / fw)) / ih / (W / fw) =
      b.height * fh / ih := by
    field_simp
    ring
  rw [← max_div_div_right hWfw.le, e1, e2]

/-- C4, amended: for a measured flyer and positive image dimensions, initial
placements computed at two different container widths store the same scale
*provided* the zone's stage-pixel bounding box is at least one pixel on each
axis at both widths (so the `max(...,1)` guards in
`computeInitialPlacement` do not engage); the degenerate-zone counterexample
shows the unrestricted claim fails. -/
theorem scale_display_independent (s1 s2 : EditorState) (f : FlyerImage)
    (zone : Zone) (iw ih : ℚ) (url fn : String)
    (hf1 : s1.flyer = some f) (hf2 : s2.flyer = some f)
    (hW1 : 0 < s1.containerWidth) (hW2 : 0 < s2.containerWidth)
    (hfw : 0 < f.width) (hiw : 0 < iw) (hih : 0 < ih)
    (hbw1 : 1 ≤ (getPolygonBounds zone.points).width * stageWidth s1)
    (hbh1 : 1 ≤ (getPolygonBounds zone.points).height * stageHeight s1)
    (hbw2 : 1 ≤ (getPolygonBounds zone.points).width * stageWidth s2)
    (hbh2 : 1 ≤ (getPolygonBounds zone.points).height * stageHeight s2) :
    (computeInitialPlacement zone iw ih url fn (stageWidth s1)
        (stageHeight s1) (stageScale s1)).scale =
      (computeInitialPlacement zone iw ih url fn (stageWidth s2)
        (stageHeight s2) (stageScale s2)).scale := by
  have hsw1 := stageWidth_measured s1 f hf1 hW1
  have hsh1 := stageHeight_measured s1 f hf1 hW1
  have hsc1 := stageScale_measured s1 f hf1 hW1
  have hsw2 := stageWidth_measured s2 f hf2 hW2
  have hsh2 := stageHeight_measured s2 f hf2 hW2
  have hsc2 := stageScale_measured s2 f hf2 hW2
  rw [hsw1] at hbw1
  rw [hsh1] at hbh1
  rw [hsw2] at hbw2
  rw [hsh2] at hbh2
  simp only [computeInitialPlacement]
  rw [hsw1, hsh1, hsc1, hsw2, hsh2, hsc2,
    normalizedScale_eval zone.points iw ih f.width f.height s1.containerWidth
      hW1 hfw hiw hih hbw1 hbh1,
    normalizedScale_eval zone.points iw ih f.width f.height s2.containerWidth
      hW2 hfw hiw hih hbw2 hbh2]

/-- Helper: `demoZone` has a unit normalized bounding box. -/
theorem demoZone_bounds :
    (getPolygonBounds demoZone.points).width = 1 ∧
      (getPolygonBounds demoZone.points).height = 1 := by
  constructor <;>
    norm_num [getPolygonBounds, listMinQ, listMaxQ, demoZone, min_def,
      max_def]

/-- Helper: `tinyZone` has a 1/500 × 1/500 normalized bounding box. -/
theorem tinyZone_bounds :
    (getPolygonBounds tinyZone.points).width = 1 / 500 ∧
      (getPolygonBounds tinyZone.points).height = 1 / 500 := by
  constructor <;>
    norm_num [getPolygonBounds, listMinQ, listMaxQ, tinyZone, min_def,
      max_def]

/-- Helper: stage geometry of the width-800 fixture. -/
theorem stage_stateW800 :
    stageWidth stateW800 = 800 ∧ stageHeight stateW800 = 400 ∧
      stageScale stateW800 = 4 / 5 := by
  have hf : stateW800.flyer = some ⟨"flyer.png", 1000, 500, "flyer.png"⟩ := rfl
  have hw : (0 : ℚ) < stateW800.containerWidth := by
    norm_num [stateW800, baseState]
  refine ⟨?_, ?_, ?_⟩
  · rw [stageWidth_measured stateW800 _ hf hw]
    rfl
  · rw [stageHeight_measured stateW800 _ hf hw]
    norm_num [stateW800, baseState]
  · rw [stageScale_measured stateW800 _ hf hw]
    norm_num [stateW800, baseState]

/-- Helper: stage geometry of the width-400 fixture. -/
theorem stage_stateW400 :
    stageWidth stateW400 = 400 ∧ stageHeight stateW400 = 200 ∧
      stageScale stateW400 = 2 / 5 := by
  have hf : stateW400.flyer = some ⟨"flyer.png", 1000, 500, "flyer.png"⟩ := rfl
  have hw : (0 : ℚ) < stateW400.containerWidth := by
    norm_num [stateW400, baseState]
  refine ⟨?_, ?_, ?_⟩
  · rw [stageWidth_measured stateW400 _ hf hw]
    rfl
  · rw [stageHeight_measured stateW400 _ hf hw]
    norm_num [stateW400, baseState]
  · rw [stageScale_measured stateW400 _ hf hw]
    norm_num [stateW400, baseState]

/-- C4 witness: the amended display-independence theorem applied to the
unit-box `demoZone` with a 100×100 image on the 1000×500 flyer at container
widths 800 and 400. -/
theorem scale_display_independent_witness :
    (computeInitialPlacement demoZone 100 100 "u" "f" (stageWidth stateW800)
        (stageHeight stateW800) (stageScale stateW800)).scale =
      (computeInitialPlacement demoZone 100 100 "u" "f" (stageWidth stateW400)
        (stageHeight stateW400) (stageScale stateW400)).scale := by
  refine scale_display_independent stateW800 stateW400
    ⟨"flyer.png", 1000, 500, "flyer.png"⟩ demoZone 100 100 "u" "f" rfl rfl
    (by norm_num [stateW800, baseState]) (by norm_num [stateW400, baseState])
    (by norm_num) (by norm_num) (by norm_num) ?_ ?_ ?_ ?_
  · rw [demoZone_bounds.1, stage_stateW800.1]; norm_num
  · rw [demoZone_bounds.2, stage_stateW800.2.1]; norm_num
  · rw [demoZone_bounds.1, stage_stateW400.1]; norm_num
  · rw [demoZone_bounds.2, stage_stateW400.2.1]; norm_num

/-- C4, counterexample: the unrestricted claim is false.  For the degenerate
`tinyZone` (bounding box 1/500 × 1/500) with a 100×100 image on the
1000×500 flyer, the stored scale is `1/50` at container width 800 but
`1/40` at container width 400: the `max(...,1)` pixel guards engage
differently at the two widths, so the stored scale is *not*
display-independent. -/
theorem scale_not_display_independent :
    (computeInitialPlacement tinyZone 100 100 "u" "f" (stageWidth stateW800)
        (stageHeight stateW800) (stageScale stateW800)).scale ≠
      (computeInitialPlacement tinyZone 100 100 "u" "f" (stageWidth stateW400)
        (stageHeight stateW400) (stageScale stateW400)).scale := by
  have e1 : (computeInitialPlacement tinyZone 100 100 "u" "f"
      (stageWidth stateW800) (stageHeight stateW800)
      (stageScale stateW800)).scale = some (1 / 50) := by
    rw [show (computeInitialPlacement tinyZone 100 100 "u" "f"
        (stageWidth stateW800) (stageHeight stateW800)
        (stageScale stateW800)).scale =
        jdiv (coverScaleStage tinyZone.points 100 100 (stageWidth stateW800)
          (stageHeight stateW800)) (some (orOne (stageScale stateW800)))
      from rfl]
    rw [stage_stateW800.1, stage_stateW800.2.1, stage_stateW800.2.2]
    rw [show coverScaleStage tinyZone.points 100 100 800 400 =
        jmax (jdiv (some (max ((getPolygonBounds tinyZone.points).width * 800)
          1)) (some 100)) (jdiv (some (max
          ((getPolygonBounds tinyZone.points).height * 400) 1)) (some 100))
      from rfl]
    rw [tinyZone_bounds.1, tinyZone_bounds.2]
    norm_num [jdiv, jmax, orOne, max_def]
  have e2 : (computeInitialPlacement tinyZone 100 100 "u" "f"
      (stageWidth stateW400) (stageHeight stateW400)
      (stageScale stateW400)).scale = some (1 / 40) := by
    rw [show (computeInitialPlacement tinyZone 100 100 "u" "f"
        (stageWidth stateW400) (stageHeight stateW400)
        (stageScale stateW400)).scale =
        jdiv (coverScaleStage tinyZone.points 100 100 (stageWidth stateW400)
          (stageHeight stateW400)) (some (orOne (stageScale stateW400)))
      from rfl]
    rw [stage_stateW400.1, stage_stateW400.2.1, stage_stateW400.2.2]
    rw [show coverScaleStage tinyZone.points 100 100 400 200 =
        jmax (jdiv (some (max ((getPolygonBounds tinyZone.points).width * 400)
          1)) (some 100)) (jdiv (some (max
          ((getPolygonBounds tinyZone.points).height * 200) 1)) (some 100))
      from rfl]
    rw [tinyZone_bounds.1, tinyZone_bounds.2]
    norm_num [jdiv, jmax, orOne, max_def]
  rw [e1, e2]
  intro h
  have := Option.some.inj h
  norm_num at this

/-- Helper: `clonePoint` succeeds only on a truthy entry whose coordinates
are both defined and coerce to finite numbers. -/
theorem clonePoint_eq_some (e : JPointEntry) (p : NormalizedPoint)
    (h : clonePoint e = some p) :
    e = JPointEntry.obj (JCoord.val (JNum.fin p.x))
      (JCoord.val (JNum.fin p.y)) := by
  rcases e with _ | ⟨x, y⟩
  · simp [clonePoint] at h
  · rcases x with _ | nx
    · simp [clonePoint] at h
    · rcases nx with q | _
      · rcases y with _ | ny
        · simp [clonePoint] at h
        · rcases ny with r | _
          · simp only [clonePoint, Option.some.injEq] at h
            rw [← h]
          · simp [clonePoint] at h
      · simp [clonePoint] at h

/-- Helper: every zone produced by `cloneZones` traces back to a raw record
with string id and name, and each of its points to an entry with two finite
coordinates. -/
theorem mem_cloneZones (zs : List ZoneLike) (z : Zone)
    (hz : z ∈ cloneZones zs) :
    ∃ zl ∈ zs, zl.id = JField.str z.id ∧ zl.name = JField.str z.name ∧
      ∀ p ∈ z.points,
        JPointEntry.obj (JCoord.val (JNum.fin p.x))
          (JCoord.val (JNum.fin p.y)) ∈ entriesOf zl.points := by
  simp only [cloneZones, List.mem_filterMap] at hz
  obtain ⟨zl, hmem, hf⟩ := hz
  refine ⟨zl, hmem, ?_⟩
  rcases zl with ⟨zid, zname, zpts⟩
  rcases zid with i | _
  · rcases zname with n | _
    · simp only [Option.some.injEq] at hf
      subst hf
      refine ⟨rfl, rfl, ?_⟩
      intro p hp
      rcases zpts with _ | es
      · simp [cloneZonePoints] at hp
      · simp only [cloneZonePoints, List.mem_filterMap] at hp
        obtain ⟨e, he, hce⟩ := hp
        have := clonePoint_eq_some e p hce
        rw [← this]
        exact he
    · simp at hf
  · simp at hf

/-- C8: the load path drops malformed or partial persisted zone records
rather than crashing: every zone in the parsed result comes from a raw
record whose `id` and `name` were strings, and every one of its points from
an array entry both of whose coordinates coerced to finite numbers (falsy
entries, missing coordinates and non-finite coordinates are dropped; the
whole function is total, so no input crashes it). -/
theorem parseDocumentZones_drops_malformed (v : ZonesValue) (z : Zone)
    (hz : z ∈ parseDocumentZones v) :
    ∃ zl ∈ zoneCandidates v,
      zl.id = JField.str z.id ∧ zl.name = JField.str z.name ∧
        ∀ p ∈ z.points,
          JPointEntry.obj (JCoord.val (JNum.fin p.x))
            (JCoord.val (JNum.fin p.y)) ∈ entriesOf zl.points := by
  cases v with
  | nullish => simp [parseDocumentZones] at hz
  | arrv zs => exact mem_cloneZones zs z hz
  | strv o =>
    cases o with
    | parsedArr zs => exact mem_cloneZones zs z hz
    | parsedOther => simp [parseDocumentZones] at hz
    | parseFailed => simp [parseDocumentZones] at hz

/-- C8 witness: the parse theorem applied to `demoZonesValue` — the
malformed record and the malformed point entries are dropped, and the one
surviving zone traces back to `goodZoneLike`. -/
theorem parseDocumentZones_drops_malformed_witness :
    goodZoneClean ∈ parseDocumentZones demoZonesValue ∧
      ∃ zl ∈ zoneCandidates demoZonesValue,
        zl.id = JField.str goodZoneClean.id ∧
          zl.name = JField.str goodZoneClean.name ∧
            ∀ p ∈ goodZoneClean.points,
              JPointEntry.obj (JCoord.val (JNum.fin p.x))
                (JCoord.val (JNum.fin p.y)) ∈ entriesOf zl.points := by
  have hz : goodZoneClean ∈ parseDocumentZones demoZonesValue := by
    have h : parseDocumentZones demoZonesValue = [goodZoneClean] := rfl
    rw [h]
    exact List.mem_singleton.mpr rfl
  exact ⟨hz, parseDocumentZones_drops_malformed demoZonesValue goodZoneClean hz⟩

end Wylbe
